import Mathlib

/-!
Verification of the core numeric kernel of the flip-coin library.

This file gives a shallow embedding, in Lean 4, of the parts of the
TypeScript source that the specification's claims are about:

* the immutable `Vec3` / `Quaternion` / `Mat3` value classes
  (src/physics/math/vec3.ts, quaternion.ts, mat3.ts);
* the `RigidBody` constructor (src/physics/rigid-body.ts);
* the collision responder (src/physics/collision.ts);
* the force model (src/physics/forces.ts) and the RK4 integrator
  (src/physics/integrator.ts);
* the initial-condition sampler and its entropy reader
  (src/simulation/initial.ts);
* `bytesToFloat` from the entropy mixer (src/entropy/mixer.ts);
* the face evaluator (src/evaluator/face.ts);
* the simulation loop of the `flipCoin` controller (src/flip.ts).

IEEE-754 doubles are modelled as elements of a linear ordered field
(instantiated at `ℚ` where every number involved is rational and a
decision procedure is wanted, and at `ℝ` where the code computes square
roots, logarithms or cosines); rounding is not modelled.  Every claim
settled below is robust to that idealisation: the compared quantities are
separated by many orders of magnitude more than double rounding error.
-/

namespace FlipCoin

/-- Embedding of the `Vec3` class (src/physics/math/vec3.ts): an immutable
triple of doubles. -/
structure Vec3 (α : Type) where
  x : α
  y : α
  z : α
deriving DecidableEq

variable {α : Type} [LinearOrderedField α]

/-- Vec3.ZERO constant. -/
def Vec3.ZERO : Vec3 α := ⟨0, 0, 0⟩

/-- Vec3.UP constant, the world up axis (0,1,0). -/
def Vec3.UP : Vec3 α := ⟨0, 1, 0⟩

/-- Component-wise sum, `Vec3.add`. -/
def Vec3.add (v w : Vec3 α) : Vec3 α := ⟨v.x + w.x, v.y + w.y, v.z + w.z⟩

/-- Component-wise difference, `Vec3.subtract`. -/
def Vec3.subtract (v w : Vec3 α) : Vec3 α := ⟨v.x - w.x, v.y - w.y, v.z - w.z⟩

/-- Scalar multiple, `Vec3.scale`. -/
def Vec3.scale (v : Vec3 α) (factor : α) : Vec3 α :=
  ⟨v.x * factor, v.y * factor, v.z * factor⟩

/-- Dot product, `Vec3.dotProduct`. -/
def Vec3.dotProduct (v w : Vec3 α) : α := v.x * w.x + v.y * w.y + v.z * w.z

/-- Cross product, `Vec3.crossProduct`. -/
def Vec3.crossProduct (v w : Vec3 α) : Vec3 α :=
  ⟨v.y * w.z - v.z * w.y, v.z * w.x - v.x * w.z, v.x * w.y - v.y * w.x⟩

/-- Squared length, `Vec3.magnitudeSquare`. -/
def Vec3.magnitudeSquare (v : Vec3 α) : α := v.x * v.x + v.y * v.y + v.z * v.z

/-- Length, `Vec3.magnitude` (only meaningful over `ℝ`, where
`Math.sqrt` is modelled by `Real.sqrt`). -/
noncomputable def Vec3.magnitude (v : Vec3 ℝ) : ℝ :=
  Real.sqrt v.magnitudeSquare

/-- Normalisation, `Vec3.normalize`: returns the zero vector for
zero-length input, otherwise scales by the reciprocal length. -/
noncomputable def Vec3.normalize (v : Vec3 ℝ) : Vec3 ℝ :=
  let m := v.magnitude
  if m = 0 then Vec3.ZERO else v.scale (1 / m)

/-- Embedding of the `Quaternion` class (src/physics/math/quaternion.ts). -/
structure Quaternion (α : Type) where
  w : α
  x : α
  y : α
  z : α
deriving DecidableEq

/-- Quaternion.TOLERANCE (1e-6), used by the component clamp, the inverse
guard and, with the same value, by `Mat3.TOLERANCE`. -/
def Quaternion.TOLERANCE : α := 1 / 1000000

/-- Quaternion.IDENTITY, the no-rotation quaternion (1,0,0,0). -/
def Quaternion.IDENTITY : Quaternion α := ⟨1, 0, 0, 0⟩

/-- Squared norm, `Quaternion.magnitudeSquare`. -/
def Quaternion.magnitudeSquare (q : Quaternion α) : α :=
  q.w * q.w + q.x * q.x + q.y * q.y + q.z * q.z

/-- Norm, `Quaternion.magnitude` (over `ℝ`). -/
noncomputable def Quaternion.magnitude (q : Quaternion ℝ) : ℝ :=
  Real.sqrt q.magnitudeSquare

/-- Quaternion.clampComponent: snaps a component whose absolute value is
below `TOLERANCE` to exact zero (suppresses `-0` propagation). -/
def Quaternion.clampComponent (value : α) : α :=
  if |value| < Quaternion.TOLERANCE then 0 else value

/-- Quaternion.normalize: returns `IDENTITY` on zero input; otherwise
divides by the norm, flips the sign so that `w ≥ 0`, and clamps each
component with `clampComponent`. -/
noncomputable def Quaternion.normalize (q : Quaternion ℝ) : Quaternion ℝ :=
  let m := q.magnitude
  if m = 0 then Quaternion.IDENTITY
  else
    let normalized : Quaternion ℝ := ⟨q.w / m, q.x / m, q.y / m, q.z / m⟩
    if normalized.w < 0 then
      ⟨Quaternion.clampComponent (-normalized.w),
       Quaternion.clampComponent (-normalized.x),
       Quaternion.clampComponent (-normalized.y),
       Quaternion.clampComponent (-normalized.z)⟩
    else
      ⟨Quaternion.clampComponent normalized.w,
       Quaternion.clampComponent normalized.x,
       Quaternion.clampComponent normalized.y,
       Quaternion.clampComponent normalized.z⟩

/-- Conjugate, `Quaternion.conjugate`. -/
def Quaternion.conjugate (q : Quaternion α) : Quaternion α :=
  ⟨q.w, -q.x, -q.y, -q.z⟩

/-- Hamilton product, `Quaternion.multiply`. -/
def Quaternion.multiply (q r : Quaternion α) : Quaternion α :=
  ⟨q.w * r.w - q.x * r.x - q.y * r.y - q.z * r.z,
   q.w * r.x + q.x * r.w + q.y * r.z - q.z * r.y,
   q.w * r.y - q.x * r.z + q.y * r.w + q.z * r.x,
   q.w * r.z + q.x * r.y - q.y * r.x + q.z * r.w⟩

/-- Quaternion.rotateVector: the sandwich product `q ⊗ (0,v) ⊗ q*`,
keeping the vector part. -/
def Quaternion.rotateVector (q : Quaternion α) (vector : Vec3 α) : Vec3 α :=
  let vQuat : Quaternion α := ⟨0, vector.x, vector.y, vector.z⟩
  let qConj := q.conjugate
  let rotated := (q.multiply vQuat).multiply qConj
  ⟨rotated.x, rotated.y, rotated.z⟩

/-- Quaternion.derivative: `dq/dt = ½ · (0,ω) ⊗ q`. -/
def Quaternion.derivative (q : Quaternion α) (angularVelocity : Vec3 α) :
    Quaternion α :=
  let omegaQuat : Quaternion α :=
    ⟨0, angularVelocity.x, angularVelocity.y, angularVelocity.z⟩
  let product := omegaQuat.multiply q
  ⟨product.w * (1 / 2), product.x * (1 / 2),
   product.y * (1 / 2), product.z * (1 / 2)⟩

/-- Embedding of the `Mat3` class (src/physics/math/mat3.ts): a 3×3 matrix
in row-major order. -/
structure Mat3 (α : Type) where
  m00 : α
  m01 : α
  m02 : α
  m10 : α
  m11 : α
  m12 : α
  m20 : α
  m21 : α
  m22 : α
deriving DecidableEq

/-- Mat3.TOLERANCE (1e-6): the fixed singularity threshold of
`Mat3.inverse`. -/
def Mat3.TOLERANCE : α := 1 / 1000000

/-- Mat3.IDENTITY. -/
def Mat3.IDENTITY : Mat3 α := ⟨1, 0, 0, 0, 1, 0, 0, 0, 1⟩

/-- Matrix product, `Mat3.multiply` (row-major). -/
def Mat3.multiply (a b : Mat3 α) : Mat3 α :=
  ⟨a.m00 * b.m00 + a.m01 * b.m10 + a.m02 * b.m20,
   a.m00 * b.m01 + a.m01 * b.m11 + a.m02 * b.m21,
   a.m00 * b.m02 + a.m01 * b.m12 + a.m02 * b.m22,
   a.m10 * b.m00 + a.m11 * b.m10 + a.m12 * b.m20,
   a.m10 * b.m01 + a.m11 * b.m11 + a.m12 * b.m21,
   a.m10 * b.m02 + a.m11 * b.m12 + a.m12 * b.m22,
   a.m20 * b.m00 + a.m21 * b.m10 + a.m22 * b.m20,
   a.m20 * b.m01 + a.m21 * b.m11 + a.m22 * b.m21,
   a.m20 * b.m02 + a.m21 * b.m12 + a.m22 * b.m22⟩

/-- Matrix-vector product, `Mat3.multiplyVec3`. -/
def Mat3.multiplyVec3 (m : Mat3 α) (v : Vec3 α) : Vec3 α :=
  ⟨m.m00 * v.x + m.m01 * v.y + m.m02 * v.z,
   m.m10 * v.x + m.m11 * v.y + m.m12 * v.z,
   m.m20 * v.x + m.m21 * v.y + m.m22 * v.z⟩

/-- Transpose, `Mat3.transpose`. -/
def Mat3.transpose (m : Mat3 α) : Mat3 α :=
  ⟨m.m00, m.m10, m.m20, m.m01, m.m11, m.m21, m.m02, m.m12, m.m22⟩

/-- Determinant, `Mat3.determinant` (cofactor expansion of the first
row). -/
def Mat3.determinant (m : Mat3 α) : α :=
  m.m00 * (m.m11 * m.m22 - m.m12 * m.m21) -
    m.m01 * (m.m10 * m.m22 - m.m12 * m.m20) +
    m.m02 * (m.m10 * m.m21 - m.m11 * m.m20)

/-- Mat3.inverse: returns `none` (the TypeScript `null`) when
`|det| < TOLERANCE`, otherwise the adjugate divided by the determinant. -/
def Mat3.inverse (m : Mat3 α) : Option (Mat3 α) :=
  if |m.determinant| < Mat3.TOLERANCE then none
  else
    let det := m.determinant
    let c00 := m.m11 * m.m22 - m.m12 * m.m21
    let c01 := -(m.m10 * m.m22 - m.m12 * m.m20)
    let c02 := m.m10 * m.m21 - m.m11 * m.m20
    let c10 := -(m.m01 * m.m22 - m.m02 * m.m21)
    let c11 := m.m00 * m.m22 - m.m02 * m.m20
    let c12 := -(m.m00 * m.m21 - m.m01 * m.m20)
    let c20 := m.m01 * m.m12 - m.m02 * m.m11
    let c21 := -(m.m00 * m.m12 - m.m02 * m.m10)
    let c22 := m.m00 * m.m11 - m.m01 * m.m10
    let invDet := 1 / det
    some
      ⟨c00 * invDet, c10 * invDet, c20 * invDet,
       c01 * invDet, c11 * invDet, c21 * invDet,
       c02 * invDet, c12 * invDet, c22 * invDet⟩

/-- Embedding of the `RigidBody` class fields (src/physics/rigid-body.ts):
state variables plus body-fixed physical properties. -/
structure RigidBody (α : Type) where
  mass : α
  inertiaTensor : Mat3 α
  inverseInertiaTensor : Mat3 α
  radius : α
  thickness : α
  position : Vec3 α
  orientation : Quaternion α
  linearVelocity : Vec3 α
  angularVelocity : Vec3 α
deriving DecidableEq

/-- Embedding of the `RigidBody` constructor: it computes
`inertiaTensor.inverse()` and throws (here: returns `none`) when the
inverse is `null`, i.e. when `Mat3.inverse` reports singularity. -/
def RigidBody.create (mass : α) (inertiaTensor : Mat3 α) (radius : α)
    (thickness : α) (position : Vec3 α) (orientation : Quaternion α)
    (linearVelocity : Vec3 α) (angularVelocity : Vec3 α) :
    Option (RigidBody α) :=
  match inertiaTensor.inverse with
  | none => none
  | some inv =>
      some ⟨mass, inertiaTensor, inv, radius, thickness, position,
            orientation, linearVelocity, angularVelocity⟩

/-- Embedding of `CoinConfig` (src/types/coin-config.ts). -/
structure CoinConfig (α : Type) where
  mass : α
  radius : α
  thickness : α

/-- The `defaultCoinConfig` constant: a US quarter,
mass 0.00567 kg, radius 0.01213 m, thickness 0.00175 m. -/
def defaultCoinConfig : CoinConfig α :=
  ⟨567 / 100000, 1213 / 100000, 175 / 100000⟩

/-- The cylinder inertia tensor built inline by `flipCoin`
(src/flip.ts): `I_yy = ½·m·r²`, `I_xx = I_zz = (1/12)·m·(3r² + h²)`,
assembled as `diag(I_xx, I_yy, I_xx)`. -/
def flipCoinInertiaTensor (cfg : CoinConfig α) : Mat3 α :=
  let r := cfg.radius
  let h := cfg.thickness
  let m := cfg.mass
  let iyy := (1 / 2) * m * r * r
  let ixx := (1 / 12) * m * (3 * (r * r) + h * h)
  ⟨ixx, 0, 0, 0, iyy, 0, 0, 0, ixx⟩

/-- C1.  The claim asserts that `Mat3.inverse` succeeds on the default
coin's physically valid inertia tensor (determinant on the order of
1e-20) and hence that `RigidBody` construction with the default coin
configuration succeeds.  The code does the opposite: `Mat3.inverse`
rejects every matrix with `|det| < 1e-6`, the default coin inertia
tensor's determinant (≈ 1.8·10⁻²⁰) is far below that threshold, so
`inverse` returns `null` and the `RigidBody` constructor throws.  This
theorem evaluates the embedded code at exactly that failing input. -/
theorem C1_default_coin_inertia_rejected :
    Mat3.inverse (flipCoinInertiaTensor (defaultCoinConfig (α := ℚ))) = none ∧
    RigidBody.create (defaultCoinConfig (α := ℚ)).mass
      (flipCoinInertiaTensor defaultCoinConfig)
      (defaultCoinConfig (α := ℚ)).radius (defaultCoinConfig (α := ℚ)).thickness
      ⟨0, 1, 0⟩ Quaternion.IDENTITY Vec3.ZERO Vec3.ZERO = none := by
  have h : |(flipCoinInertiaTensor (defaultCoinConfig (α := ℚ))).determinant| <
      Mat3.TOLERANCE := by
    norm_num [flipCoinInertiaTensor, defaultCoinConfig, Mat3.determinant,
      Mat3.TOLERANCE, abs_lt]
  have hinv :
      Mat3.inverse (flipCoinInertiaTensor (defaultCoinConfig (α := ℚ))) = none := by
    simp only [Mat3.inverse]
    rw [if_pos h]
  exact ⟨hinv, by simp only [RigidBody.create, hinv]⟩

/-- Embedding of `CollisionResult` (src/physics/types/collision-result.ts):
the optional fields are only present when `colliding` is true. -/
structure CollisionResult (α : Type) where
  colliding : Bool
  normal : Option (Vec3 α)
  penetrationDepth : Option α
  contactPoint : Option (Vec3 α)
deriving DecidableEq

/-- Embedding of a resolved `CollisionConfig`
(src/physics/types/collision-config.ts).  The source merges a partial
config over `DEFAULT_COLLISION_CONFIG`; here the resolved record is
passed directly. -/
structure CollisionConfig (α : Type) where
  restitution : α
  friction : α
  penetrationTolerance : α
deriving DecidableEq

/-- The `DEFAULT_COLLISION_CONFIG` constant: restitution 0.5,
friction 0.3, penetration tolerance 0.0001. -/
def DEFAULT_COLLISION_CONFIG : CollisionConfig α :=
  ⟨1 / 2, 3 / 10, 1 / 10000⟩

/-- The contact arm `r = contactPoint - position` of
`applyCollisionResponse` (src/physics/collision.ts). -/
def collisionR (body : RigidBody α) (contactPoint : Vec3 α) : Vec3 α :=
  contactPoint.subtract body.position

/-- The contact-point velocity `v_point = v + ω × r` of
`applyCollisionResponse`. -/
def collisionPointVelocity (body : RigidBody α) (contactPoint : Vec3 α) :
    Vec3 α :=
  body.linearVelocity.add
    (body.angularVelocity.crossProduct (collisionR body contactPoint))

/-- The scalar `velocityDotNormal = v_point · n` of
`applyCollisionResponse`. -/
def velocityDotNormal (body : RigidBody α) (normal contactPoint : Vec3 α) :
    α :=
  (collisionPointVelocity body contactPoint).dotProduct normal

/-- The tangential part `v_t = v_point - (v_point · n) n` of the
contact-point velocity in `applyCollisionResponse`. -/
def collisionTangentialVelocity (body : RigidBody α)
    (normal contactPoint : Vec3 α) : Vec3 α :=
  (collisionPointVelocity body contactPoint).subtract
    (normal.scale (velocityDotNormal body normal contactPoint))

/-- The micro-collision gate of `applyCollisionResponse`: effective
restitution is 0 when `velocityDotNormal > -0.1`, otherwise the
configured restitution. -/
def effectiveRestitution (config : CollisionConfig α) (vdn : α) : α :=
  if vdn > -(1 / 10) then 0 else config.restitution

/-- The denominator term
`angularFactor = (I⁻¹ · (r × n)) · (r × n)` of `applyCollisionResponse`. -/
def angularFactor (body : RigidBody α) (normal contactPoint : Vec3 α) : α :=
  let rCrossN := (collisionR body contactPoint).crossProduct normal
  (body.inverseInertiaTensor.multiplyVec3 rCrossN).dotProduct rCrossN

/-- The scalar restitution impulse `j_n` of `applyCollisionResponse`:
applied only when the contact point moves into the ground
(`velocityDotNormal < 0`), with the micro-collision gate and the
rigid-body impulse denominator `1/m + angularFactor`. -/
def normalImpulse (body : RigidBody α) (config : CollisionConfig α)
    (normal contactPoint : Vec3 α) : α :=
  if velocityDotNormal body normal contactPoint < 0 then
    -(1 + effectiveRestitution config (velocityDotNormal body normal contactPoint)) *
        velocityDotNormal body normal contactPoint /
      (1 / body.mass + angularFactor body normal contactPoint)
  else 0

/-- The tangential (Coulomb) friction impulse vector `j_t_vec` of
`applyCollisionResponse`: `-μ·|j_n|` along the normalised tangential
velocity when the latter is non-negligible, otherwise zero.  The
magnitude `μ·|j_n|` is not additionally capped against the tangential
speed. -/
noncomputable def frictionImpulse (body : RigidBody ℝ)
    (config : CollisionConfig ℝ) (normal contactPoint : Vec3 ℝ) : Vec3 ℝ :=
  let tangentialVelocity := collisionTangentialVelocity body normal contactPoint
  let frictionImpulseMagnitude :=
    config.friction * |normalImpulse body config normal contactPoint|
  if tangentialVelocity.magnitudeSquare > 1 / 1000000000000 then
    tangentialVelocity.normalize.scale (-frictionImpulseMagnitude)
  else Vec3.ZERO

/-- Embedding of `applyCollisionResponse` (src/physics/collision.ts):
early-out when not colliding or when any optional field is missing;
otherwise apply the total impulse `J = j_n·n + j_t` to the linear
velocity (`Δv = J/m`) and angular velocity (`Δω = I⁻¹·(r × J)`), and
project the position out of the ground when `penetrationDepth > 0`. -/
noncomputable def applyCollisionResponse (body : RigidBody ℝ)
    (collision : CollisionResult ℝ) (config : CollisionConfig ℝ) :
    RigidBody ℝ :=
  match collision.colliding, collision.normal, collision.penetrationDepth,
      collision.contactPoint with
  | true, some normal, some penetrationDepth, some contactPoint =>
      let j_n := normalImpulse body config normal contactPoint
      let j_t_vec := frictionImpulse body config normal contactPoint
      let impulse := (normal.scale j_n).add j_t_vec
      let newLinearVelocity :=
        body.linearVelocity.add (impulse.scale (1 / body.mass))
      let torqueImpulse := (collisionR body contactPoint).crossProduct impulse
      let deltaOmega := body.inverseInertiaTensor.multiplyVec3 torqueImpulse
      let newAngularVelocity := body.angularVelocity.add deltaOmega
      let newPosition :=
        if penetrationDepth > 0 then
          body.position.add (normal.scale penetrationDepth)
        else body.position
      { body with
          position := newPosition
          linearVelocity := newLinearVelocity
          angularVelocity := newAngularVelocity }
  | _, _, _, _ => body

/-- Normalising a vector that lies on the positive x-axis yields the unit
x vector (here `Math.sqrt(a·a) = a` for `a > 0`). -/
theorem Vec3.normalize_pos_x (a : ℝ) (ha : 0 < a) :
    Vec3.normalize ⟨a, 0, 0⟩ = ⟨1, 0, 0⟩ := by
  have hm : (Vec3.magnitude ⟨a, 0, 0⟩) = a := by
    rw [Vec3.magnitude, Vec3.magnitudeSquare]
    have h1 : a * a + 0 * 0 + 0 * 0 = a * a := by ring
    rw [h1, Real.sqrt_mul_self ha.le]
  simp only [Vec3.normalize, hm]
  rw [if_neg ha.ne']
  simp only [Vec3.scale, one_div]
  rw [Vec3.mk.injEq]
  refine ⟨mul_inv_cancel₀ ha.ne', by norm_num, by norm_num⟩

/-- C3.  The spec requires the Coulomb friction impulse to be capped so
it can never reverse the sign of the tangential motion, and the code's
own comments state that the applied friction counters sliding "without
injecting energy or reversing motion".  The implementation applies the
full `μ·|j_n|` with no cap against the tangential speed, so a slow
tangential drift combined with a hard normal impact is reversed and even
amplified: for the body below (mass 1, identity inertia, velocity
(0.1, -1, 0), contact straight below the centre) the pre-collision
tangential velocity is `0.1` along x and the post-collision tangential
velocity is `-0.35` along x — opposite sign and larger magnitude. -/
theorem C3_friction_impulse_reverses_tangential_motion :
    (collisionTangentialVelocity
        (⟨1, Mat3.IDENTITY, Mat3.IDENTITY, 12 / 1000, 2 / 1000,
          ⟨0, 1 / 1000, 0⟩, Quaternion.IDENTITY, ⟨1 / 10, -1, 0⟩,
          Vec3.ZERO⟩ : RigidBody ℝ)
        Vec3.UP Vec3.ZERO).x = 1 / 10 ∧
    (applyCollisionResponse
        (⟨1, Mat3.IDENTITY, Mat3.IDENTITY, 12 / 1000, 2 / 1000,
          ⟨0, 1 / 1000, 0⟩, Quaternion.IDENTITY, ⟨1 / 10, -1, 0⟩,
          Vec3.ZERO⟩ : RigidBody ℝ)
        ⟨true, some Vec3.UP, some (1 / 1000), some Vec3.ZERO⟩
        DEFAULT_COLLISION_CONFIG).linearVelocity.x = -(7 / 20) ∧
    ¬ ((0 : ℝ) < -(7 / 20)) ∧ ¬ (|(-(7 / 20) : ℝ)| ≤ 1 / 10) := by
  have hpre : (collisionTangentialVelocity
      (⟨1, Mat3.IDENTITY, Mat3.IDENTITY, 12 / 1000, 2 / 1000,
        ⟨0, 1 / 1000, 0⟩, Quaternion.IDENTITY, ⟨1 / 10, -1, 0⟩,
        Vec3.ZERO⟩ : RigidBody ℝ)
      Vec3.UP Vec3.ZERO) = ⟨1 / 10, 0, 0⟩ := by
    norm_num [collisionTangentialVelocity, collisionPointVelocity,
      velocityDotNormal, collisionR, Vec3.UP, Vec3.ZERO, Vec3.add,
      Vec3.subtract, Vec3.scale, Vec3.crossProduct, Vec3.dotProduct]
  have hvdn : velocityDotNormal
      (⟨1, Mat3.IDENTITY, Mat3.IDENTITY, 12 / 1000, 2 / 1000,
        ⟨0, 1 / 1000, 0⟩, Quaternion.IDENTITY, ⟨1 / 10, -1, 0⟩,
        Vec3.ZERO⟩ : RigidBody ℝ) Vec3.UP Vec3.ZERO = -1 := by
    norm_num [velocityDotNormal, collisionPointVelocity, collisionR,
      Vec3.UP, Vec3.ZERO, Vec3.add, Vec3.subtract, Vec3.scale,
      Vec3.crossProduct, Vec3.dotProduct]
  have hjn : normalImpulse
      (⟨1, Mat3.IDENTITY, Mat3.IDENTITY, 12 / 1000, 2 / 1000,
        ⟨0, 1 / 1000, 0⟩, Quaternion.IDENTITY, ⟨1 / 10, -1, 0⟩,
        Vec3.ZERO⟩ : RigidBody ℝ) DEFAULT_COLLISION_CONFIG Vec3.UP
      Vec3.ZERO = 3 / 2 := by
    rw [normalImpulse, hvdn]
    norm_num [effectiveRestitution, angularFactor, collisionR,
      DEFAULT_COLLISION_CONFIG, Vec3.UP, Vec3.ZERO, Vec3.subtract,
      Vec3.crossProduct, Vec3.dotProduct, Mat3.multiplyVec3, Mat3.IDENTITY]
  have hjt : frictionImpulse
      (⟨1, Mat3.IDENTITY, Mat3.IDENTITY, 12 / 1000, 2 / 1000,
        ⟨0, 1 / 1000, 0⟩, Quaternion.IDENTITY, ⟨1 / 10, -1, 0⟩,
        Vec3.ZERO⟩ : RigidBody ℝ) DEFAULT_COLLISION_CONFIG Vec3.UP
      Vec3.ZERO = ⟨-(9 / 20), 0, 0⟩ := by
    rw [frictionImpulse]
    simp only [hpre, hjn]
    rw [if_pos (by norm_num [Vec3.magnitudeSquare])]
    rw [Vec3.normalize_pos_x (1 / 10) (by norm_num)]
    have habs : |(3 / 2 : ℝ)| = 3 / 2 := abs_of_pos (by norm_num)
    norm_num [DEFAULT_COLLISION_CONFIG, Vec3.scale, habs]
  refine ⟨by rw [hpre], ?_, by norm_num, by rw [abs_of_nonpos] <;> norm_num⟩
  show (applyCollisionResponse _ ⟨true, some Vec3.UP, some (1 / 1000),
    some Vec3.ZERO⟩ _).linearVelocity.x = -(7 / 20)
  rw [applyCollisionResponse]
  simp only [hjn, hjt]
  norm_num [Vec3.UP, Vec3.ZERO, Vec3.add, Vec3.scale]

/-- C4.  Restitution behaviour of `applyCollisionResponse`:
(i) for normal incidence (contact straight below the centre, no spin,
velocity `(0, -v, 0)` with `v ≥ 0.1` so the micro-collision gate does
not fire) under the default configuration (`e = 0.5`), the
post-collision normal velocity is `0.5·v` to within `10⁻⁵` (it is in
fact exact in real arithmetic); and
(ii) whenever the contact-point normal velocity exceeds `-0.1`, the
effective restitution used in the impulse is 0: the response is
identical to the response computed with the configured restitution
replaced by 0, so no bounce impulse beyond cancelling the approach
velocity is applied. -/
theorem C4_restitution_and_micro_collision_gate :
    (∀ (mass px py pz pen rad th : ℝ) (I Iinv : Mat3 ℝ)
        (q : Quaternion ℝ) (v : ℝ), 0 < mass → 1 / 10 ≤ v →
      |(applyCollisionResponse
            (⟨mass, I, Iinv, rad, th, ⟨px, py, pz⟩, q, ⟨0, -v, 0⟩,
              Vec3.ZERO⟩ : RigidBody ℝ)
            ⟨true, some Vec3.UP, some pen, some ⟨px, 0, pz⟩⟩
            DEFAULT_COLLISION_CONFIG).linearVelocity.dotProduct Vec3.UP -
          (1 / 2) * v| < 1 / 100000) ∧
    (∀ (body : RigidBody ℝ) (normal contactPoint : Vec3 ℝ)
        (penDepth : ℝ) (config : CollisionConfig ℝ),
      velocityDotNormal body normal contactPoint > -(1 / 10) →
      applyCollisionResponse body
          ⟨true, some normal, some penDepth, some contactPoint⟩ config =
        applyCollisionResponse body
          ⟨true, some normal, some penDepth, some contactPoint⟩
          { config with restitution := 0 }) := by
  constructor
  · intro mass px py pz pen rad th I Iinv q v hm hv
    have hvdn : velocityDotNormal
        (⟨mass, I, Iinv, rad, th, ⟨px, py, pz⟩, q, ⟨0, -v, 0⟩,
          Vec3.ZERO⟩ : RigidBody ℝ) Vec3.UP ⟨px, 0, pz⟩ = -v := by
      norm_num [velocityDotNormal, collisionPointVelocity, collisionR,
        Vec3.UP, Vec3.ZERO, Vec3.add, Vec3.subtract, Vec3.scale,
        Vec3.crossProduct, Vec3.dotProduct]
    have haf : angularFactor
        (⟨mass, I, Iinv, rad, th, ⟨px, py, pz⟩, q, ⟨0, -v, 0⟩,
          Vec3.ZERO⟩ : RigidBody ℝ) Vec3.UP ⟨px, 0, pz⟩ = 0 := by
      have hr : (collisionR
          (⟨mass, I, Iinv, rad, th, ⟨px, py, pz⟩, q, ⟨0, -v, 0⟩,
            Vec3.ZERO⟩ : RigidBody ℝ) ⟨px, 0, pz⟩).crossProduct Vec3.UP =
          Vec3.ZERO := by
        norm_num [collisionR, Vec3.UP, Vec3.ZERO, Vec3.subtract,
          Vec3.crossProduct]
      rw [angularFactor]
      simp only [hr]
      simp [Vec3.dotProduct, Vec3.ZERO]
    have hjn : normalImpulse
        (⟨mass, I, Iinv, rad, th, ⟨px, py, pz⟩, q, ⟨0, -v, 0⟩,
          Vec3.ZERO⟩ : RigidBody ℝ) DEFAULT_COLLISION_CONFIG Vec3.UP
        ⟨px, 0, pz⟩ = (3 / 2) * v * mass := by
      rw [normalImpulse, hvdn, haf]
      rw [if_pos (by linarith)]
      rw [effectiveRestitution, if_neg (by push_neg; linarith)]
      rw [DEFAULT_COLLISION_CONFIG]
      field_simp
      ring
    have hjt : frictionImpulse
        (⟨mass, I, Iinv, rad, th, ⟨px, py, pz⟩, q, ⟨0, -v, 0⟩,
          Vec3.ZERO⟩ : RigidBody ℝ) DEFAULT_COLLISION_CONFIG Vec3.UP
        ⟨px, 0, pz⟩ = Vec3.ZERO := by
      have ht : collisionTangentialVelocity
          (⟨mass, I, Iinv, rad, th, ⟨px, py, pz⟩, q, ⟨0, -v, 0⟩,
            Vec3.ZERO⟩ : RigidBody ℝ) Vec3.UP ⟨px, 0, pz⟩ = Vec3.ZERO := by
        rw [collisionTangentialVelocity, hvdn]
        norm_num [collisionPointVelocity, collisionR, Vec3.UP, Vec3.ZERO,
          Vec3.add, Vec3.subtract, Vec3.scale, Vec3.crossProduct]
      rw [frictionImpulse]
      simp only [ht]
      rw [if_neg (by norm_num [Vec3.magnitudeSquare, Vec3.ZERO])]
    have hne : mass ≠ 0 := hm.ne'
    have hlv : (applyCollisionResponse
        (⟨mass, I, Iinv, rad, th, ⟨px, py, pz⟩, q, ⟨0, -v, 0⟩,
          Vec3.ZERO⟩ : RigidBody ℝ)
        ⟨true, some Vec3.UP, some pen, some ⟨px, 0, pz⟩⟩
        DEFAULT_COLLISION_CONFIG).linearVelocity = ⟨0, (1 / 2) * v, 0⟩ := by
      rw [applyCollisionResponse]
      simp only [hjn, hjt]
      simp only [Vec3.UP, Vec3.ZERO, Vec3.add, Vec3.scale]
      rw [Vec3.mk.injEq]
      refine ⟨by norm_num, ?_, by norm_num⟩
      field_simp
      ring
    rw [hlv]
    norm_num [Vec3.dotProduct, Vec3.UP]
  · intro body normal contactPoint penDepth config hgate
    have hni : normalImpulse body config normal contactPoint =
        normalImpulse body { config with restitution := 0 } normal
          contactPoint := by
      rw [normalImpulse, normalImpulse]
      rw [effectiveRestitution, effectiveRestitution, if_pos hgate,
        if_pos hgate]
    rw [applyCollisionResponse, applyCollisionResponse]
    simp only [frictionImpulse, hni]

/-- C4 witness: the theorem applied at a concrete normal-incidence
impact (mass 1, v = 1) and at a concrete micro-collision
(approach speed 0.05 < 0.1). -/
theorem C4_restitution_and_micro_collision_gate_witness :
    (0 : ℝ) < 1 ∧ (1 / 10 : ℝ) ≤ 1 ∧
    |(applyCollisionResponse
          (⟨1, Mat3.IDENTITY, Mat3.IDENTITY, 12 / 1000, 2 / 1000,
            ⟨0, 1 / 1000, 0⟩, Quaternion.IDENTITY, ⟨0, -1, 0⟩,
            Vec3.ZERO⟩ : RigidBody ℝ)
          ⟨true, some Vec3.UP, some (1 / 1000), some ⟨0, 0, 0⟩⟩
          DEFAULT_COLLISION_CONFIG).linearVelocity.dotProduct Vec3.UP -
        (1 / 2) * 1| < 1 / 100000 ∧
    velocityDotNormal
        (⟨1, Mat3.IDENTITY, Mat3.IDENTITY, 12 / 1000, 2 / 1000,
          ⟨0, 1 / 1000, 0⟩, Quaternion.IDENTITY, ⟨0, -(1 / 20), 0⟩,
          Vec3.ZERO⟩ : RigidBody ℝ) Vec3.UP ⟨0, 0, 0⟩ > -(1 / 10) ∧
    applyCollisionResponse
        (⟨1, Mat3.IDENTITY, Mat3.IDENTITY, 12 / 1000, 2 / 1000,
          ⟨0, 1 / 1000, 0⟩, Quaternion.IDENTITY, ⟨0, -(1 / 20), 0⟩,
          Vec3.ZERO⟩ : RigidBody ℝ)
        ⟨true, some Vec3.UP, some (1 / 1000), some ⟨0, 0, 0⟩⟩
        DEFAULT_COLLISION_CONFIG =
      applyCollisionResponse
        (⟨1, Mat3.IDENTITY, Mat3.IDENTITY, 12 / 1000, 2 / 1000,
          ⟨0, 1 / 1000, 0⟩, Quaternion.IDENTITY, ⟨0, -(1 / 20), 0⟩,
          Vec3.ZERO⟩ : RigidBody ℝ)
        ⟨true, some Vec3.UP, some (1 / 1000), some ⟨0, 0, 0⟩⟩
        { DEFAULT_COLLISION_CONFIG with restitution := 0 } := by
  have hgate : velocityDotNormal
      (⟨1, Mat3.IDENTITY, Mat3.IDENTITY, 12 / 1000, 2 / 1000,
        ⟨0, 1 / 1000, 0⟩, Quaternion.IDENTITY, ⟨0, -(1 / 20), 0⟩,
        Vec3.ZERO⟩ : RigidBody ℝ) Vec3.UP ⟨0, 0, 0⟩ = -(1 / 20) := by
    norm_num [velocityDotNormal, collisionPointVelocity, collisionR,
      Vec3.UP, Vec3.ZERO, Vec3.add, Vec3.subtract, Vec3.crossProduct,
      Vec3.dotProduct]
  refine ⟨by norm_num, by norm_num, ?_, by rw [hgate]; norm_num, ?_⟩
  · exact C4_restitution_and_micro_collision_gate.1 1 0 (1 / 1000) 0
      (1 / 1000) (12 / 1000) (2 / 1000) Mat3.IDENTITY Mat3.IDENTITY
      Quaternion.IDENTITY 1 (by norm_num) (by norm_num)
  · exact C4_restitution_and_micro_collision_gate.2
      (⟨1, Mat3.IDENTITY, Mat3.IDENTITY, 12 / 1000, 2 / 1000,
        ⟨0, 1 / 1000, 0⟩, Quaternion.IDENTITY, ⟨0, -(1 / 20), 0⟩,
        Vec3.ZERO⟩ : RigidBody ℝ) Vec3.UP ⟨0, 0, 0⟩ (1 / 1000)
      DEFAULT_COLLISION_CONFIG (by rw [hgate]; norm_num)

/-- C9.  When the `CollisionResult` is not colliding, or is missing its
normal, penetration depth or contact point, `applyCollisionResponse`
returns early and the body is completely unchanged. -/
theorem C9_no_collision_response_is_noop (body : RigidBody ℝ)
    (collision : CollisionResult ℝ) (config : CollisionConfig ℝ)
    (h : collision.colliding = false ∨ collision.normal = none ∨
      collision.penetrationDepth = none ∨ collision.contactPoint = none) :
    applyCollisionResponse body collision config = body := by
  obtain ⟨c, n, p, cp⟩ := collision
  cases c
  · rfl
  · rcases n with _ | nv
    · rfl
    · rcases p with _ | pv
      · rfl
      · rcases cp with _ | cpv
        · rfl
        · simp at h

/-- C9 witness: a concrete non-colliding result leaves a concrete body
untouched. -/
theorem C9_no_collision_response_is_noop_witness :
    applyCollisionResponse
        (⟨1, Mat3.IDENTITY, Mat3.IDENTITY, 12 / 1000, 2 / 1000,
          ⟨0, 1, 0⟩, Quaternion.IDENTITY, ⟨1, 2, 3⟩, ⟨4, 5, 6⟩⟩ :
          RigidBody ℝ)
        ⟨false, none, none, none⟩ DEFAULT_COLLISION_CONFIG =
      (⟨1, Mat3.IDENTITY, Mat3.IDENTITY, 12 / 1000, 2 / 1000,
        ⟨0, 1, 0⟩, Quaternion.IDENTITY, ⟨1, 2, 3⟩, ⟨4, 5, 6⟩⟩ :
        RigidBody ℝ) :=
  C9_no_collision_response_is_noop _ _ _ (Or.inl rfl)

/-- Embedding of the `Face` outcome type (src/evaluator/types/face.ts). -/
inductive Face where
  | HEADS : Face
  | TAILS : Face
  | EDGE : Face
deriving DecidableEq

/-- The `DEFAULT_EDGE_THRESHOLD` constant (0.1) of the face evaluator
(src/evaluator/face.ts). -/
def DEFAULT_EDGE_THRESHOLD : α := 1 / 10

/-- Embedding of `determineFace` (src/evaluator/face.ts): rotate the
local up vector by the body's orientation, read off its y component as
the alignment, return `EDGE` when `|alignment| ≤ threshold`, otherwise
`HEADS` for positive and `TAILS` for negative alignment.  The source
resolves `options.edgeThreshold ?? DEFAULT_EDGE_THRESHOLD`; the resolved
threshold is passed here directly. -/
def determineFace (body : RigidBody α) (threshold : α) : Face :=
  let worldNormal := body.orientation.rotateVector Vec3.UP
  let alignment := worldNormal.y
  if |alignment| ≤ threshold then Face.EDGE
  else if alignment > 0 then Face.HEADS else Face.TAILS

/-- C7.  `determineFace` with the default threshold classifies by the
y component of the orientation-rotated local up vector: `HEADS` iff
`align > 0.1`, `TAILS` iff `align < -0.1`, `EDGE` iff `|align| ≤ 0.1`,
and the default edge threshold is 0.1. -/
theorem C7_determineFace_classification (body : RigidBody ℝ) :
    (determineFace body DEFAULT_EDGE_THRESHOLD = Face.HEADS ↔
      (body.orientation.rotateVector Vec3.UP).y > 1 / 10) ∧
    (determineFace body DEFAULT_EDGE_THRESHOLD = Face.TAILS ↔
      (body.orientation.rotateVector Vec3.UP).y < -(1 / 10)) ∧
    (determineFace body DEFAULT_EDGE_THRESHOLD = Face.EDGE ↔
      |(body.orientation.rotateVector Vec3.UP).y| ≤ 1 / 10) ∧
    (DEFAULT_EDGE_THRESHOLD : ℝ) = 1 / 10 := by
  set a := (body.orientation.rotateVector Vec3.UP).y with ha
  have hd : determineFace body DEFAULT_EDGE_THRESHOLD =
      if |a| ≤ 1 / 10 then Face.EDGE
      else if a > 0 then Face.HEADS else Face.TAILS := by
    rw [determineFace, DEFAULT_EDGE_THRESHOLD]
  by_cases h1 : |a| ≤ 1 / 10
  · rw [hd, if_pos h1]
    have hub := (abs_le.mp h1).2
    have hlb := (abs_le.mp h1).1
    exact ⟨iff_of_false (by decide) (by linarith),
      iff_of_false (by decide) (by linarith),
      iff_of_true rfl h1, rfl⟩
  · rw [hd, if_neg h1]
    push_neg at h1
    by_cases h2 : a > 0
    · rw [if_pos h2]
      have h3 : a > 1 / 10 := by
        rwa [abs_of_pos h2] at h1
      exact ⟨iff_of_true rfl h3,
        iff_of_false (by decide) (by linarith),
        iff_of_false (by decide) h1.not_le, rfl⟩
    · rw [if_neg h2]
      push_neg at h2
      have h3 : a < -(1 / 10) := by
        rw [abs_of_nonpos h2] at h1
        linarith
      exact ⟨iff_of_false (by decide) (by linarith),
        iff_of_true rfl h3,
        iff_of_false (by decide) h1.not_le, rfl⟩

/-- Outcome of one simulated attempt of the `flipCoin` controller:
final abstract physics state, the consecutive-stable counter at loop
exit, whether the attempt surfaces `SimulationTimeoutError`
(`consecutiveStableCount < maxConsecutiveStableFrames` after the loop),
and the wall-clock `runTime = endTime - startTime` recorded for
statistics and the error message. -/
structure AttemptOutcome (σ : Type) where
  finalState : σ
  consecutiveStable : ℕ
  timedOut : Bool
  runTime : ℚ
deriving DecidableEq

/-- The inner `while` loop of `flipCoin` (src/flip.ts): while
`elapsedSimulationTime < timeout`, perform one physics step (integrate,
near-ground damping and collision handling are abstracted into `step`),
update the consecutive-stable counter from `isStable`, break once the
counter reaches 10, and otherwise add `dt * 1000` to
`elapsedSimulationTime`.  The loop never reads the wall clock.  The
`fuel` argument is an upper bound on iterations supplied by the caller;
the source loop needs none because `elapsedSimulationTime` strictly
increases. -/
def simulationLoopGo {σ : Type} (step : σ → σ) (stable : σ → Bool)
    (timeout dtMs : ℚ) : ℕ → σ → ℚ → ℕ → σ × ℕ
  | 0, s, _, consec => (s, consec)
  | fuel + 1, s, elapsed, consec =>
      if elapsed < timeout then
        let s2 := step s
        let consec2 := if stable s2 then consec + 1 else 0
        if 10 ≤ consec2 then (s2, consec2)
        else simulationLoopGo step stable timeout dtMs fuel s2
          (elapsed + dtMs) consec2
      else (s, consec)

/-- One attempt of the `flipCoin` controller loop (src/flip.ts):
`dt = 0.0001` is the fixed timestep, `wallClock` models the successive
`performance.now()` readings (taken once before and once after the
loop), and the attempt times out exactly when the loop exits with fewer
than 10 consecutive stable frames. -/
def runSimulationAttempt {σ : Type} (step : σ → σ) (stable : σ → Bool)
    (wallClock : ℕ → ℚ) (timeout : ℚ) (fuel : ℕ) (s0 : σ) :
    AttemptOutcome σ :=
  let dt : ℚ := 1 / 10000
  let startTime := wallClock 0
  let result := simulationLoopGo step stable timeout (dt * 1000) fuel s0 0 0
  let endTime := wallClock 1
  ⟨result.1, result.2, decide (result.2 < 10), endTime - startTime⟩

/-- C2.  The claim (and the doc comments of `FlipOptions.timeout` and
`SimulationTimeoutError`) say the loop is bounded by wall-clock elapsed
time: it terminates with `SimulationTimeout` exactly when wall-clock
time exceeds the timeout before 10 consecutive stable steps.  The
implementation instead compares `elapsedSimulationTime` — the
accumulated simulated time, `dt·1000` ms per step — against the
timeout and never reads the wall clock inside the loop.  Evaluated
here with a never-stable state, timeout 0.5 ms and step counting:
with a wall clock frozen at 0 (elapsed wall-clock time 0 never exceeds
the timeout) the loop still stops after exactly 5 steps of simulated
time and surfaces the timeout; and with a wall clock that exceeds the
timeout immediately, the loop still runs the same 5 steps instead of
terminating at once. -/
theorem C2_loop_bounded_by_simulated_time_not_wall_clock :
    (runSimulationAttempt (fun n : ℕ => n + 1) (fun _ => false)
        (fun _ => 0) (1 / 2) 6 0).timedOut = true ∧
    (runSimulationAttempt (fun n : ℕ => n + 1) (fun _ => false)
        (fun _ => 0) (1 / 2) 6 0).finalState = 5 ∧
    (runSimulationAttempt (fun n : ℕ => n + 1) (fun _ => false)
        (fun _ => 0) (1 / 2) 6 0).runTime = 0 ∧
    ((0 : ℚ) < 1 / 2) ∧
    (runSimulationAttempt (fun n : ℕ => n + 1) (fun _ => false)
        (fun i => 100000 * i) (1 / 2) 6 0).finalState = 5 ∧
    (1 / 2 : ℚ) < 100000 * 1 - 100000 * 0 := by
  refine ⟨?_, ?_, ?_, by norm_num, ?_, by norm_num⟩
  · norm_num [runSimulationAttempt, simulationLoopGo]
  · norm_num [runSimulationAttempt, simulationLoopGo]
  · norm_num [runSimulationAttempt, simulationLoopGo]
  · norm_num [runSimulationAttempt, simulationLoopGo]

/-- State of the `EntropyReader` cursor (src/simulation/initial.ts):
the byte buffer, the read offset, and the number of `Math.random()`
fallback draws consumed so far (the oracle index). -/
structure EntropyReaderState where
  data : List ℕ
  offset : ℕ
  randIdx : ℕ
deriving DecidableEq

/-- Embedding of `EntropyReader.nextUniform` (src/simulation/initial.ts).
When fewer than 4 bytes remain it falls back to `Math.random()`,
modelled by the next value of the oracle `rand`; otherwise it consumes
4 bytes.  The source computes
`(b0 << 24) | (b1 << 16) | (b2 << 8) | b3` followed by `>>> 0`; for
byte inputs (each `< 256`, guaranteed by `Uint8Array`) that equals the
big-endian value `b0·2²⁴ + b1·2¹⁶ + b2·2⁸ + b3` embedded here, which is
then divided by `2³² = 4294967296`. -/
noncomputable def nextUniform (rand : ℕ → ℝ) (st : EntropyReaderState) :
    ℝ × EntropyReaderState :=
  if st.data.length < st.offset + 4 then
    (rand st.randIdx, ⟨st.data, st.offset, st.randIdx + 1⟩)
  else
    let u32 : ℕ := st.data.getD st.offset 0 * 16777216 +
      st.data.getD (st.offset + 1) 0 * 65536 +
      st.data.getD (st.offset + 2) 0 * 256 + st.data.getD (st.offset + 3) 0
    ((u32 : ℝ) / 4294967296, ⟨st.data, st.offset + 4, st.randIdx⟩)

/-- Embedding of `bytesToFloat` (src/entropy/mixer.ts): throws (here
`none`) when fewer than 4 bytes remain at the offset, otherwise decodes
the 4 bytes as a LITTLE-endian unsigned 32-bit integer
`b0 + b1·2⁸ + b2·2¹⁶ + b3·2²⁴` and divides by `2³²`. -/
noncomputable def bytesToFloat (buffer : List ℕ) (offset : ℕ) : Option ℝ :=
  if buffer.length < offset + 4 then none
  else
    let value : ℕ := buffer.getD offset 0 +
      buffer.getD (offset + 1) 0 * 256 +
      buffer.getD (offset + 2) 0 * 65536 + buffer.getD (offset + 3) 0 * 16777216
    some ((value : ℝ) / 4294967296)

/-- C10.  With at least 4 bytes remaining, `nextUniform` decodes the 4
consumed bytes as a big-endian u32 divided by `2³²`, giving a value in
`[0, 1 - 2⁻³²]`; its byte order is the reverse of `bytesToFloat`'s
little-endian decode (`nextUniform` on bytes `[a,b,c,d]` equals
`bytesToFloat` on `[d,c,b,a]`); and on the same 4 bytes the two
decoders generally disagree — e.g. on `[0,0,0,1]` they give `2⁻³²`
and `2⁻⁸`. -/
theorem C10_nextUniform_big_endian :
    (∀ (rand : ℕ → ℝ) (st : EntropyReaderState),
      st.offset + 4 ≤ st.data.length → (∀ b ∈ st.data, b < 256) →
      0 ≤ (nextUniform rand st).1 ∧
        (nextUniform rand st).1 ≤ 1 - 1 / 4294967296) ∧
    (∀ (rand : ℕ → ℝ) (b0 b1 b2 b3 : ℕ),
      some (nextUniform rand ⟨[b0, b1, b2, b3], 0, 0⟩).1 =
        bytesToFloat [b3, b2, b1, b0] 0) ∧
    (nextUniform (fun _ => 0) ⟨[0, 0, 0, 1], 0, 0⟩).1 ≠
      (bytesToFloat [0, 0, 0, 1] 0).getD 0 := by
  refine ⟨?_, ?_, ?_⟩
  · intro rand st hlen hbytes
    have hmem : ∀ i, i < st.data.length → st.data.getD i 0 ≤ 255 := by
      intro i hi
      have : st.data.getD i 0 ∈ st.data := by
        rw [st.data.getD_eq_getElem 0 hi]
        exact st.data.getElem_mem hi
      exact Nat.lt_succ_iff.mp (hbytes _ this)
    have h0 := hmem st.offset (by omega)
    have h1 := hmem (st.offset + 1) (by omega)
    have h2 := hmem (st.offset + 2) (by omega)
    have h3 := hmem (st.offset + 3) (by omega)
    rw [nextUniform, if_neg (by omega)]
    constructor
    · positivity
    · have hn : st.data.getD st.offset 0 * 16777216 +
          st.data.getD (st.offset + 1) 0 * 65536 +
          st.data.getD (st.offset + 2) 0 * 256 +
          st.data.getD (st.offset + 3) 0 ≤ 4294967295 := by omega
      have hc : ((st.data.getD st.offset 0 * 16777216 +
          st.data.getD (st.offset + 1) 0 * 65536 +
          st.data.getD (st.offset + 2) 0 * 256 +
          st.data.getD (st.offset + 3) 0 : ℕ) : ℝ) ≤ 4294967295 := by
        exact_mod_cast hn
      have hpos : (0 : ℝ) < 4294967296 := by norm_num
      calc ((st.data.getD st.offset 0 * 16777216 +
            st.data.getD (st.offset + 1) 0 * 65536 +
            st.data.getD (st.offset + 2) 0 * 256 +
            st.data.getD (st.offset + 3) 0 : ℕ) : ℝ) / 4294967296 ≤
          4294967295 / 4294967296 := by
            exact (div_le_div_iff_of_pos_right hpos).mpr hc
        _ = 1 - 1 / 4294967296 := by norm_num
  · intro rand b0 b1 b2 b3
    rw [nextUniform, if_neg (by simp)]
    rw [bytesToFloat, if_neg (by simp)]
    simp only [List.getD]
    norm_num [List.getD, List.get?]
    ring_nf
  · rw [nextUniform, if_neg (by simp), bytesToFloat, if_neg (by simp)]
    norm_num [List.getD, List.get?]

/-- C10 witness: the interval bound applied to a concrete full-range
buffer and the byte-reversal equation applied to concrete bytes. -/
theorem C10_nextUniform_big_endian_witness :
    (0 ≤ (nextUniform (fun _ => 0) ⟨[255, 255, 255, 255], 0, 0⟩).1 ∧
      (nextUniform (fun _ => 0) ⟨[255, 255, 255, 255], 0, 0⟩).1 ≤
        1 - 1 / 4294967296) ∧
    some (nextUniform (fun _ => 0) ⟨[1, 2, 3, 4], 0, 0⟩).1 =
      bytesToFloat [4, 3, 2, 1] 0 :=
  ⟨C10_nextUniform_big_endian.1 (fun _ => 0) ⟨[255, 255, 255, 255], 0, 0⟩
      (by simp) (by decide),
    C10_nextUniform_big_endian.2.1 (fun _ => 0) 1 2 3 4⟩

/-- Squared length of a rotated vector: the sandwich product scales the
squared length by the square of the quaternion's squared norm (a
polynomial identity of `rotateVector`). -/
theorem Quaternion.rotateVector_magnitudeSquare (q : Quaternion α)
    (v : Vec3 α) :
    (q.rotateVector v).magnitudeSquare =
      q.magnitudeSquare ^ 2 * v.magnitudeSquare := by
  simp only [Quaternion.rotateVector, Quaternion.multiply,
    Quaternion.conjugate, Quaternion.magnitudeSquare, Vec3.magnitudeSquare]
  ring

/-- C6 as stated is false: the spec quantifies over every quaternion,
but for non-unit quaternions `rotateVector` also scales the vector by
the squared norm.  At `q = (2,0,0,0)` and `v = (1,0,0)` the rotated
vector is `(4,0,0)`, so the relative length error is 3, far above
`10⁻¹⁰`. -/
theorem C6_nonunit_quaternion_counterexample :
    ¬ |((⟨2, 0, 0, 0⟩ : Quaternion ℝ).rotateVector ⟨1, 0, 0⟩).magnitude -
        (⟨1, 0, 0⟩ : Vec3 ℝ).magnitude| <
      1 / 10000000000 * (⟨1, 0, 0⟩ : Vec3 ℝ).magnitude := by
  have h1 : ((⟨2, 0, 0, 0⟩ : Quaternion ℝ).rotateVector ⟨1, 0, 0⟩) =
      (⟨4, 0, 0⟩ : Vec3 ℝ) := by
    norm_num [Quaternion.rotateVector, Quaternion.multiply,
      Quaternion.conjugate]
  have h2 : ((⟨4, 0, 0⟩ : Vec3 ℝ)).magnitude = 4 := by
    rw [Vec3.magnitude, Vec3.magnitudeSquare]
    rw [show (4 : ℝ) * 4 + 0 * 0 + 0 * 0 = 4 ^ 2 by norm_num]
    exact Real.sqrt_sq (by norm_num)
  have h3 : ((⟨1, 0, 0⟩ : Vec3 ℝ)).magnitude = 1 := by
    rw [Vec3.magnitude, Vec3.magnitudeSquare]
    norm_num
  rw [h1, h2, h3]
  norm_num

/-- C6 amended: for unit quaternions (`magnitudeSquare q = 1` — the
only quaternions the code feeds to rotation sinks), `rotateVector`
preserves length exactly in real arithmetic, so the spec's relative
error bound holds with `≤` (at `v = 0` both sides are zero, so the
strict `<` of the spec cannot hold there). -/
theorem C6_unit_rotation_preserves_length (q : Quaternion ℝ) (v : Vec3 ℝ)
    (h : q.magnitudeSquare = 1) :
    |(q.rotateVector v).magnitude - v.magnitude| ≤
      1 / 10000000000 * v.magnitude := by
  have h2 : (q.rotateVector v).magnitudeSquare = v.magnitudeSquare := by
    rw [Quaternion.rotateVector_magnitudeSquare, h]
    ring
  have h3 : (q.rotateVector v).magnitude = v.magnitude := by
    rw [Vec3.magnitude, Vec3.magnitude, h2]
  rw [h3, sub_self, abs_zero]
  have h4 : 0 ≤ v.magnitude := Real.sqrt_nonneg _
  positivity

/-- C6 witness: the amended theorem applied to the identity quaternion
and the vector (3,4,0). -/
theorem C6_unit_rotation_preserves_length_witness :
    (Quaternion.IDENTITY : Quaternion ℝ).magnitudeSquare = 1 ∧
    |((Quaternion.IDENTITY : Quaternion ℝ).rotateVector
        ⟨3, 4, 0⟩).magnitude - (⟨3, 4, 0⟩ : Vec3 ℝ).magnitude| ≤
      1 / 10000000000 * (⟨3, 4, 0⟩ : Vec3 ℝ).magnitude := by
  have h : (Quaternion.IDENTITY : Quaternion ℝ).magnitudeSquare = 1 := by
    norm_num [Quaternion.IDENTITY, Quaternion.magnitudeSquare]
  exact ⟨h, C6_unit_rotation_preserves_length Quaternion.IDENTITY ⟨3, 4, 0⟩ h⟩

/-- Embedding of `LaunchParameters`
(src/simulation/types/launch-parameters.ts). -/
structure LaunchParameters where
  initialPosition : Vec3 ℝ
  initialOrientation : Quaternion ℝ
  impulseMean : ℝ
  impulseStdDev : ℝ
  angularVelocityMean : ℝ
  angularVelocityStdDev : ℝ
  spinAxis : Vec3 ℝ
  spinAxisStdDev : ℝ

/-- The `DEFAULT_LAUNCH_PARAMETERS` constant: position (0,1,0), identity
orientation, impulse N(5.0, 0.5), angular speed N(120, 20) about +x,
axis wobble stdDev 0.1. -/
noncomputable def DEFAULT_LAUNCH_PARAMETERS : LaunchParameters :=
  ⟨⟨0, 1, 0⟩, ⟨1, 0, 0, 0⟩, 5, 1 / 2, 120, 20, ⟨1, 0, 0⟩, 1 / 10⟩

/-- Embedding of `RigidBodyState`
(src/physics/types/rigid-body-state.ts). -/
structure RigidBodyState where
  position : Vec3 ℝ
  linearVelocity : Vec3 ℝ
  orientation : Quaternion ℝ
  angularVelocity : Vec3 ℝ

/-- Embedding of `EntropyReader.nextGaussian`
(src/simulation/initial.ts): Box-Muller from two uniforms, with `u1`
clamped below by `1e-10` to avoid `log(0)`. -/
noncomputable def nextGaussian (rand : ℕ → ℝ) (mean stdDev : ℝ)
    (st : EntropyReaderState) : ℝ × EntropyReaderState :=
  let r1 := nextUniform rand st
  let r2 := nextUniform rand r1.2
  let u1 := r1.1
  let u2 := r2.1
  let safeU1 := if u1 < 1 / 10000000000 then 1 / 10000000000 else u1
  let z0 := Real.sqrt (-2 * Real.log safeU1) * Real.cos (2 * Real.pi * u2)
  (mean + z0 * stdDev, r2.2)

/-- Embedding of `generateInitialCondition` (src/simulation/initial.ts):
vertical impulse and spin magnitude are Gaussian samples, the spin axis
is the normalised ideal axis plus a Gaussian perturbation, renormalised;
position and orientation are copied from the parameters.  `rand` is the
`Math.random()` fallback oracle of the reader. -/
noncomputable def generateInitialCondition (rand : ℕ → ℝ)
    (entropy : List ℕ) (params : LaunchParameters) : RigidBodyState :=
  let st0 : EntropyReaderState := ⟨entropy, 0, 0⟩
  let g1 := nextGaussian rand params.impulseMean params.impulseStdDev st0
  let linearVelocity : Vec3 ℝ := ⟨0, g1.1, 0⟩
  let g2 := nextGaussian rand params.angularVelocityMean
    params.angularVelocityStdDev g1.2
  let g3 := nextGaussian rand 0 params.spinAxisStdDev g2.2
  let g4 := nextGaussian rand 0 params.spinAxisStdDev g3.2
  let g5 := nextGaussian rand 0 params.spinAxisStdDev g4.2
  let perturbation : Vec3 ℝ := ⟨g3.1, g4.1, g5.1⟩
  let axis :=
    (⟨params.spinAxis.x, params.spinAxis.y, params.spinAxis.z⟩ :
      Vec3 ℝ).normalize
  let finalAxis := (axis.add perturbation).normalize
  let angularVelocity := finalAxis.scale g2.1
  ⟨params.initialPosition, linearVelocity, params.initialOrientation,
    angularVelocity⟩

/-- Value of an in-bounds 4-byte read of the entropy reader (big-endian
u32 over 2³²), used to state that `nextUniform` does not consult the
fallback oracle when enough bytes remain. -/
noncomputable def uniformValueAt (data : List ℕ) (offset : ℕ) : ℝ :=
  ((data.getD offset 0 * 16777216 + data.getD (offset + 1) 0 * 65536 +
    data.getD (offset + 2) 0 * 256 + data.getD (offset + 3) 0 : ℕ) : ℝ) /
    4294967296

/-- Value of an in-bounds Box-Muller draw of the entropy reader. -/
noncomputable def gaussValueAt (data : List ℕ) (offset : ℕ)
    (mean stdDev : ℝ) : ℝ :=
  let u1 := uniformValueAt data offset
  let u2 := uniformValueAt data (offset + 4)
  let safeU1 := if u1 < 1 / 10000000000 then 1 / 10000000000 else u1
  mean + Real.sqrt (-2 * Real.log safeU1) * Real.cos (2 * Real.pi * u2) *
    stdDev

/-- With at least 4 bytes remaining, `nextUniform` reads the buffer and
ignores the fallback oracle. -/
theorem nextUniform_inBounds (rand : ℕ → ℝ) (data : List ℕ)
    (offset randIdx : ℕ) (h : offset + 4 ≤ data.length) :
    nextUniform rand ⟨data, offset, randIdx⟩ =
      (uniformValueAt data offset, ⟨data, offset + 4, randIdx⟩) := by
  rw [nextUniform, if_neg (by simp only []; omega), uniformValueAt]

/-- With at least 8 bytes remaining, `nextGaussian` reads the buffer and
ignores the fallback oracle. -/
theorem nextGaussian_inBounds (rand : ℕ → ℝ) (mean stdDev : ℝ)
    (data : List ℕ) (offset randIdx : ℕ) (h : offset + 8 ≤ data.length) :
    nextGaussian rand mean stdDev ⟨data, offset, randIdx⟩ =
      (gaussValueAt data offset mean stdDev,
        ⟨data, offset + 8, randIdx⟩) := by
  rw [nextGaussian]
  rw [nextUniform_inBounds rand data offset randIdx (by omega)]
  simp only []
  rw [nextUniform_inBounds rand data (offset + 4) randIdx (by omega)]
  simp only [gaussValueAt]

/-- C5 as stated (deterministic for EVERY entropy buffer) is false: when
fewer than 4 bytes remain at any draw, the reader falls back to the
non-deterministic `Math.random()`.  With an empty buffer and the default
parameters, the oracle that always returns 1 gives vertical impulse 5
(`z₀ = 0` because `ln 1 = 0`), while an oracle whose first value is
`e⁻²` gives impulse 6 (`z₀ = √(−2·ln e⁻²)·cos 2π = 2`, times stdDev
0.5); the two sampled states differ. -/
theorem C5_short_buffer_nondeterministic :
    generateInitialCondition (fun _ => 1) [] DEFAULT_LAUNCH_PARAMETERS ≠
      generateInitialCondition (fun n => if n = 0 then Real.exp (-2) else 1)
        [] DEFAULT_LAUNCH_PARAMETERS := by
  have hu : ∀ (r : ℕ → ℝ) (k : ℕ), nextUniform r ⟨[], 0, k⟩ =
      (r k, ⟨[], 0, k + 1⟩) := by
    intro r k
    rw [nextUniform, if_pos (by simp)]
  have hg1 : (generateInitialCondition (fun _ => 1) []
      DEFAULT_LAUNCH_PARAMETERS).linearVelocity.y = 5 := by
    simp only [generateInitialCondition, nextGaussian, hu,
      DEFAULT_LAUNCH_PARAMETERS]
    rw [if_neg (by norm_num)]
    rw [Real.log_one]
    norm_num
  have hexp9 : (1 / 9 : ℝ) < Real.exp (-2) := by
    have h1 : Real.exp 1 < 3 := by
      have := Real.exp_one_lt_d9
      linarith
    have h2 : Real.exp 2 < 9 := by
      rw [show (2 : ℝ) = 1 + 1 by norm_num, Real.exp_add]
      nlinarith [Real.exp_pos 1]
    rw [Real.exp_neg]
    calc (1 / 9 : ℝ) = 9⁻¹ := by norm_num
      _ < (Real.exp 2)⁻¹ := by
          exact inv_strictAnti₀ (Real.exp_pos 2) h2
  have hg2 : (generateInitialCondition
      (fun n => if n = 0 then Real.exp (-2) else 1) []
      DEFAULT_LAUNCH_PARAMETERS).linearVelocity.y = 6 := by
    simp only [generateInitialCondition, nextGaussian, hu,
      DEFAULT_LAUNCH_PARAMETERS, reduceIte]
    rw [if_neg (by push_neg; nlinarith [hexp9])]
    rw [show (if 0 + 1 = 0 then Real.exp (-2) else (1 : ℝ)) = 1 from by
      norm_num]
    rw [Real.log_exp, mul_one, Real.cos_two_pi]
    rw [show (-2 : ℝ) * -2 = 2 ^ 2 by norm_num, Real.sqrt_sq (by norm_num)]
    norm_num
  intro h
  rw [congrArg (fun s => s.linearVelocity.y) h] at hg1
  rw [hg1] at hg2
  norm_num at hg2

/-- C5 amended: the sampler is deterministic in the entropy bytes and
parameters whenever the buffer holds at least 40 bytes (the 10 uniform
draws it consumes): the result does not depend on the fallback oracle,
so two runs with the same bytes and parameters agree. -/
theorem C5_sampler_deterministic_with_enough_entropy
    (rand1 rand2 : ℕ → ℝ) (entropy : List ℕ) (params : LaunchParameters)
    (h : 40 ≤ entropy.length) :
    generateInitialCondition rand1 entropy params =
      generateInitialCondition rand2 entropy params := by
  simp only [generateInitialCondition,
    nextGaussian_inBounds rand1 params.impulseMean params.impulseStdDev
      entropy 0 0 (by omega),
    nextGaussian_inBounds rand2 params.impulseMean params.impulseStdDev
      entropy 0 0 (by omega),
    nextGaussian_inBounds rand1 params.angularVelocityMean
      params.angularVelocityStdDev entropy 8 0 (by omega),
    nextGaussian_inBounds rand2 params.angularVelocityMean
      params.angularVelocityStdDev entropy 8 0 (by omega),
    nextGaussian_inBounds rand1 0 params.spinAxisStdDev entropy 16 0
      (by omega),
    nextGaussian_inBounds rand2 0 params.spinAxisStdDev entropy 16 0
      (by omega),
    nextGaussian_inBounds rand1 0 params.spinAxisStdDev entropy 24 0
      (by omega),
    nextGaussian_inBounds rand2 0 params.spinAxisStdDev entropy 24 0
      (by omega),
    nextGaussian_inBounds rand1 0 params.spinAxisStdDev entropy 32 0
      (by omega),
    nextGaussian_inBounds rand2 0 params.spinAxisStdDev entropy 32 0
      (by omega)]

/-- C5 witness: two very different oracles sample the same state from a
40-byte buffer. -/
theorem C5_sampler_deterministic_with_enough_entropy_witness :
    40 ≤ (List.replicate 40 0).length ∧
    generateInitialCondition (fun _ => 0) (List.replicate 40 0)
        DEFAULT_LAUNCH_PARAMETERS =
      generateInitialCondition (fun _ => 1) (List.replicate 40 0)
        DEFAULT_LAUNCH_PARAMETERS :=
  ⟨by simp,
    C5_sampler_deterministic_with_enough_entropy (fun _ => 0) (fun _ => 1)
      (List.replicate 40 0) DEFAULT_LAUNCH_PARAMETERS (by simp)⟩

/-- Embedding of a resolved `ForceConfig`
(src/physics/types/force-config.ts). -/
structure ForceConfig where
  gravity : ℝ
  airDensity : ℝ
  dragCoefficient : ℝ
  angularDamping : ℝ

/-- The `DEFAULT_FORCE_CONFIG` constant: g 9.81, air density 1.2, drag
coefficient 1.17, angular damping 1e-8. -/
noncomputable def DEFAULT_FORCE_CONFIG : ForceConfig :=
  ⟨981 / 100, 6 / 5, 117 / 100, 1 / 100000000⟩

/-- Embedding of `computeGravityForce` (src/physics/forces.ts):
`UP · (-mass · gravity)`. -/
noncomputable def computeGravityForce (mass gravity : ℝ) : Vec3 ℝ :=
  Vec3.UP.scale (-mass * gravity)

/-- Embedding of `computeLinearDragForce` (src/physics/forces.ts):
quadratic drag `-½·ρ·Cd·πr²·|v|²·v̂`, returning zero when
`|v|² < 1e-12`. -/
noncomputable def computeLinearDragForce (velocity : Vec3 ℝ)
    (radius airDensity dragCoefficient : ℝ) : Vec3 ℝ :=
  if velocity.magnitudeSquare < 1 / 1000000000000 then Vec3.ZERO
  else
    let area := Real.pi * radius * radius
    let dragMagnitude := (1 / 2) * airDensity * dragCoefficient * area *
      velocity.magnitudeSquare
    velocity.normalize.scale (-dragMagnitude)

/-- Embedding of `computeAngularDragTorque` (src/physics/forces.ts):
`-k·ω`. -/
noncomputable def computeAngularDragTorque (angularVelocity : Vec3 ℝ)
    (angularDamping : ℝ) : Vec3 ℝ :=
  angularVelocity.scale (-angularDamping)

/-- Embedding of `ForceAccumulator`
(src/physics/types/force-accumulator.ts). -/
structure ForceAccumulator where
  force : Vec3 ℝ
  torque : Vec3 ℝ

/-- Embedding of `computeForces` (src/physics/forces.ts): gravity plus
linear drag as the net force, angular drag as the net torque. -/
noncomputable def computeForces (body : RigidBody ℝ) (config : ForceConfig) :
    ForceAccumulator :=
  ⟨(computeGravityForce body.mass config.gravity).add
      (computeLinearDragForce body.linearVelocity body.radius
        config.airDensity config.dragCoefficient),
    computeAngularDragTorque body.angularVelocity config.angularDamping⟩

/-- Embedding of `StateDerivative`
(src/physics/types/state-derivative.ts); the `torque` slot stores the
angular acceleration α, as the source comments note. -/
structure StateDerivative where
  velocity : Vec3 ℝ
  force : Vec3 ℝ
  spin : Quaternion ℝ
  torque : Vec3 ℝ

/-- Embedding of `quatToRotationMatrix` (src/physics/integrator.ts). -/
def quatToRotationMatrix (q : Quaternion α) : Mat3 α :=
  let xx := q.x * q.x
  let yy := q.y * q.y
  let zz := q.z * q.z
  let xy := q.x * q.y
  let xz := q.x * q.z
  let yz := q.y * q.z
  let wx := q.w * q.x
  let wy := q.w * q.y
  let wz := q.w * q.z
  ⟨1 - 2 * (yy + zz), 2 * (xy - wz), 2 * (xz + wy),
   2 * (xy + wz), 1 - 2 * (xx + zz), 2 * (yz - wx),
   2 * (xz - wy), 2 * (yz + wx), 1 - 2 * (xx + yy)⟩

/-- Embedding of the integrator's `evaluate`
(src/physics/integrator.ts): advance the state linearly by the given
derivative (renormalising the intermediate orientation), compute forces
at the advanced state, and return the new derivatives with the angular
acceleration from Euler's rotational equation
`α = I⁻¹_world · (τ - ω × (I_world·ω))`, where the inertia tensors are
rotated into world space with the intermediate orientation.  The
source's `tempBody` carries only mass, radius and the advanced state;
the inertia tensors are read from `body` itself. -/
noncomputable def evaluate (body : RigidBody ℝ) (initial : RigidBodyState)
    (dt : ℝ) (derivative : StateDerivative) (config : ForceConfig) :
    StateDerivative :=
  let statePos := initial.position.add (derivative.velocity.scale dt)
  let stateVel := initial.linearVelocity.add
    (derivative.force.scale (dt / body.mass))
  let dSpin := derivative.spin
  let stateOrient :=
    (⟨initial.orientation.w + dSpin.w * dt,
      initial.orientation.x + dSpin.x * dt,
      initial.orientation.y + dSpin.y * dt,
      initial.orientation.z + dSpin.z * dt⟩ : Quaternion ℝ).normalize
  let stateAngVel := initial.angularVelocity.add (derivative.torque.scale dt)
  let tempBody : RigidBody ℝ :=
    { body with
        position := statePos
        linearVelocity := stateVel
        orientation := stateOrient
        angularVelocity := stateAngVel }
  let accum := computeForces tempBody config
  let dPos := stateVel
  let dForce := accum.force
  let dSpinNew := stateOrient.derivative stateAngVel
  let R := quatToRotationMatrix stateOrient
  let Rt := R.transpose
  let I_inv_world := (R.multiply body.inverseInertiaTensor).multiply Rt
  let I_world := (R.multiply body.inertiaTensor).multiply Rt
  let angularMomentum := I_world.multiplyVec3 stateAngVel
  let gyroTorque := stateAngVel.crossProduct angularMomentum
  let netTorque := accum.torque.subtract gyroTorque
  let alpha := I_inv_world.multiplyVec3 netTorque
  ⟨dPos, dForce, dSpinNew, alpha⟩

/-- The RK4 weighted average `(k1 + 2k2 + 2k3 + k4)/6` for vectors
(src/physics/integrator.ts). -/
noncomputable def weightedAverageVec3 (k1 k2 k3 k4 : Vec3 ℝ) : Vec3 ℝ :=
  (((k1.add (k2.scale 2)).add (k3.scale 2)).add k4).scale (1 / 6)

/-- The RK4 component-wise weighted average for quaternions
(src/physics/integrator.ts). -/
noncomputable def weightedAverageQuaternion (k1 k2 k3 k4 : Quaternion ℝ) :
    Quaternion ℝ :=
  ⟨(k1.w + 2 * k2.w + 2 * k3.w + k4.w) / 6,
   (k1.x + 2 * k2.x + 2 * k3.x + k4.x) / 6,
   (k1.y + 2 * k2.y + 2 * k3.y + k4.y) / 6,
   (k1.z + 2 * k2.z + 2 * k3.z + k4.z) / 6⟩

/-- Embedding of `integrate` (src/physics/integrator.ts): the classical
four-stage RK4 step; the combined orientation `q + dt·meanSpin` is
normalised (and thereby sign-canonicalised) before being stored. -/
noncomputable def integrate (body : RigidBody ℝ) (dt : ℝ)
    (config : ForceConfig) : RigidBody ℝ :=
  let initialState : RigidBodyState :=
    ⟨body.position, body.linearVelocity, body.orientation,
      body.angularVelocity⟩
  let zeroDerivative : StateDerivative :=
    ⟨Vec3.ZERO, Vec3.ZERO, ⟨0, 0, 0, 0⟩, Vec3.ZERO⟩
  let k1 := evaluate body initialState 0 zeroDerivative config
  let k2 := evaluate body initialState (dt * (1 / 2)) k1 config
  let k3 := evaluate body initialState (dt * (1 / 2)) k2 config
  let k4 := evaluate body initialState dt k3 config
  let dPosition := weightedAverageVec3 k1.velocity k2.velocity k3.velocity
    k4.velocity
  let dForce := weightedAverageVec3 k1.force k2.force k3.force k4.force
  let acceleration := dForce.scale (1 / body.mass)
  let dSpin := weightedAverageQuaternion k1.spin k2.spin k3.spin k4.spin
  let qNew : Quaternion ℝ :=
    ⟨body.orientation.w + dSpin.w * dt, body.orientation.x + dSpin.x * dt,
      body.orientation.y + dSpin.y * dt, body.orientation.z + dSpin.z * dt⟩
  let dAngularAcceleration := weightedAverageVec3 k1.torque k2.torque
    k3.torque k4.torque
  { body with
      position := body.position.add (dPosition.scale dt)
      linearVelocity := body.linearVelocity.add (acceleration.scale dt)
      orientation := qNew.normalize
      angularVelocity := body.angularVelocity.add
        (dAngularAcceleration.scale dt) }

/-- The squared norm of a quaternion is non-negative. -/
theorem Quaternion.magnitudeSquare_nonneg (q : Quaternion ℝ) :
    0 ≤ q.magnitudeSquare := by
  rw [Quaternion.magnitudeSquare]
  nlinarith [mul_self_nonneg q.w, mul_self_nonneg q.x, mul_self_nonneg q.y,
    mul_self_nonneg q.z]

/-- The component clamp never increases a square, removes at most
`10⁻¹²` from it, and preserves non-negativity. -/
theorem Quaternion.clampComponent_sq (x : ℝ) :
    (Quaternion.clampComponent x) ^ 2 ≤ x ^ 2 ∧
      x ^ 2 - (Quaternion.clampComponent x) ^ 2 ≤ 1 / 1000000000000 ∧
      (0 ≤ x → 0 ≤ Quaternion.clampComponent x) := by
  rw [Quaternion.clampComponent, Quaternion.TOLERANCE]
  split_ifs with h
  · have h2 : x ^ 2 < 1 / 1000000000000 := by
      have h3 : |x| ^ 2 < (1 / 1000000) ^ 2 :=
        pow_lt_pow_left₀ h (abs_nonneg x) (by norm_num)
      rw [sq_abs] at h3
      nlinarith
    exact ⟨by nlinarith [sq_nonneg x], by nlinarith, fun _ => le_refl 0⟩
  · exact ⟨le_refl _, by nlinarith, fun hx => hx⟩

/-- Magnitude and sign bounds for a quaternion whose components are
unit-sum squares passed through the clamp: the clamp changes the squared
norm by at most `4·10⁻¹²`, so the norm stays within `10⁻⁶` of 1, and a
non-negative scalar component stays non-negative. -/
theorem Quaternion.clamped_bounds (a b c d : ℝ) (ha : 0 ≤ a)
    (hsum : a ^ 2 + b ^ 2 + c ^ 2 + d ^ 2 = 1) :
    1 - 1 / 1000000 ≤
      (⟨Quaternion.clampComponent a, Quaternion.clampComponent b,
        Quaternion.clampComponent c, Quaternion.clampComponent d⟩ :
        Quaternion ℝ).magnitude ∧
    (⟨Quaternion.clampComponent a, Quaternion.clampComponent b,
      Quaternion.clampComponent c, Quaternion.clampComponent d⟩ :
      Quaternion ℝ).magnitude ≤ 1 + 1 / 1000000 ∧
    0 ≤ (⟨Quaternion.clampComponent a, Quaternion.clampComponent b,
      Quaternion.clampComponent c, Quaternion.clampComponent d⟩ :
      Quaternion ℝ).w := by
  obtain ⟨ha1, ha2, ha3⟩ := Quaternion.clampComponent_sq a
  obtain ⟨hb1, hb2, _⟩ := Quaternion.clampComponent_sq b
  obtain ⟨hc1, hc2, _⟩ := Quaternion.clampComponent_sq c
  obtain ⟨hd1, hd2, _⟩ := Quaternion.clampComponent_sq d
  have hS : (⟨Quaternion.clampComponent a, Quaternion.clampComponent b,
      Quaternion.clampComponent c, Quaternion.clampComponent d⟩ :
      Quaternion ℝ).magnitudeSquare =
      (Quaternion.clampComponent a) ^ 2 + (Quaternion.clampComponent b) ^ 2 +
      (Quaternion.clampComponent c) ^ 2 + (Quaternion.clampComponent d) ^ 2 := by
    rw [Quaternion.magnitudeSquare]
    ring
  refine ⟨?_, ?_, ha3 ha⟩
  · rw [Quaternion.magnitude, hS]
    have e1 : ((1 : ℝ) - 1 / 1000000) ^ 2 ≤
        (Quaternion.clampComponent a) ^ 2 + (Quaternion.clampComponent b) ^ 2 +
        (Quaternion.clampComponent c) ^ 2 +
        (Quaternion.clampComponent d) ^ 2 := by
      nlinarith
    calc (1 : ℝ) - 1 / 1000000 =
        Real.sqrt (((1 : ℝ) - 1 / 1000000) ^ 2) :=
          (Real.sqrt_sq (by norm_num)).symm
      _ ≤ _ := Real.sqrt_le_sqrt e1
  · rw [Quaternion.magnitude, hS]
    have e2 : (Quaternion.clampComponent a) ^ 2 +
        (Quaternion.clampComponent b) ^ 2 +
        (Quaternion.clampComponent c) ^ 2 +
        (Quaternion.clampComponent d) ^ 2 ≤ 1 := by
      nlinarith
    calc Real.sqrt ((Quaternion.clampComponent a) ^ 2 +
        (Quaternion.clampComponent b) ^ 2 +
        (Quaternion.clampComponent c) ^ 2 +
        (Quaternion.clampComponent d) ^ 2) ≤ Real.sqrt 1 :=
          Real.sqrt_le_sqrt e2
      _ = 1 := Real.sqrt_one
      _ ≤ 1 + 1 / 1000000 := by norm_num

/-- Invariant of `Quaternion.normalize`: the result's norm lies within
`10⁻⁶` of 1 and its scalar component is non-negative, for every input
quaternion. -/
theorem Quaternion.normalize_near_unit (q : Quaternion ℝ) :
    1 - 1 / 1000000 ≤ q.normalize.magnitude ∧
      q.normalize.magnitude ≤ 1 + 1 / 1000000 ∧ 0 ≤ q.normalize.w := by
  have hid : (Quaternion.IDENTITY : Quaternion ℝ).magnitude = 1 := by
    rw [Quaternion.magnitude, Quaternion.IDENTITY, Quaternion.magnitudeSquare]
    rw [show (1 : ℝ) * 1 + 0 * 0 + 0 * 0 + 0 * 0 = 1 by norm_num]
    exact Real.sqrt_one
  simp only [Quaternion.normalize]
  split_ifs with h1 h2
  · exact ⟨by rw [hid]; norm_num, by rw [hid]; norm_num,
      by rw [Quaternion.IDENTITY]; norm_num⟩
  · have hms0 : 0 ≤ q.magnitudeSquare := Quaternion.magnitudeSquare_nonneg q
    have hmm : q.magnitude ^ 2 = q.magnitudeSquare := Real.sq_sqrt hms0
    have h2w : q.w / q.magnitude < 0 := h2
    have hq : q.w ^ 2 + q.x ^ 2 + q.y ^ 2 + q.z ^ 2 = q.magnitude ^ 2 := by
      rw [hmm, Quaternion.magnitudeSquare]
      ring
    have hsum : (-(q.w / q.magnitude)) ^ 2 + (-(q.x / q.magnitude)) ^ 2 +
        (-(q.y / q.magnitude)) ^ 2 + (-(q.z / q.magnitude)) ^ 2 = 1 := by
      field_simp
      linear_combination hq
    exact Quaternion.clamped_bounds (-(q.w / q.magnitude))
      (-(q.x / q.magnitude)) (-(q.y / q.magnitude)) (-(q.z / q.magnitude))
      (neg_nonneg.mpr h2w.le) hsum
  · have hms0 : 0 ≤ q.magnitudeSquare := Quaternion.magnitudeSquare_nonneg q
    have hmm : q.magnitude ^ 2 = q.magnitudeSquare := Real.sq_sqrt hms0
    have h2w : 0 ≤ q.w / q.magnitude := not_lt.mp h2
    have hq : q.w ^ 2 + q.x ^ 2 + q.y ^ 2 + q.z ^ 2 = q.magnitude ^ 2 := by
      rw [hmm, Quaternion.magnitudeSquare]
      ring
    have hsum : (q.w / q.magnitude) ^ 2 + (q.x / q.magnitude) ^ 2 +
        (q.y / q.magnitude) ^ 2 + (q.z / q.magnitude) ^ 2 = 1 := by
      field_simp
      linear_combination hq
    exact Quaternion.clamped_bounds (q.w / q.magnitude) (q.x / q.magnitude)
      (q.y / q.magnitude) (q.z / q.magnitude) h2w hsum

/-- C8.  After every `integrate` step, for every starting body, timestep
and force configuration, the orientation quaternion is near-unit and
canonical: its magnitude lies in `[1 - 10⁻⁶, 1 + 10⁻⁶]` and its scalar
component is non-negative, because the integrator stores
`normalize` of the combined orientation. -/
theorem C8_integrate_orientation_invariant (body : RigidBody ℝ) (dt : ℝ)
    (config : ForceConfig) :
    1 - 1 / 1000000 ≤ (integrate body dt config).orientation.magnitude ∧
      (integrate body dt config).orientation.magnitude ≤ 1 + 1 / 1000000 ∧
      0 ≤ (integrate body dt config).orientation.w := by
  simp only [integrate]
  exact Quaternion.normalize_near_unit _

end FlipCoin
